import Mathlib

/-!
Shallow embedding of the tariff calculation engine of the repository
`sample_usage_data_month` (files `project.py`, `projectv2.py`, `projectv3.py`).

Conventions of the embedding:
* money and kWh amounts are exact rationals (`ℚ`), standing for the Python
  floats in an idealized exact arithmetic;
* a timestamp is a natural number of minutes since an epoch
  (`day * 1440 + minuteOfDay`); a time-of-day is a number of minutes of the
  day, so `datetime.time` comparisons become `ℕ` comparisons, and the Python
  `datetime.combine(d, time.min)` / `datetime.combine(d, time.max)` become
  `startOfDay` / `endOfDay` below (every reading of a day lies between them,
  inclusively, exactly as with `time.max = 23:59:59.999999`);
* a Python dict keyed by strings, updated with `d[k] = d.get(k, 0) + v`
  (accumulate) or `d[k] = v` (assign), is an association list in insertion
  order, updated with `addTo` / `setTo` below, which preserve the position of
  an existing key and append a new key at the end, as CPython dicts do;
* the result dicts of the calculators become the `Bill` structure; a dict
  that carries no `totalKWh` key is embedded with the default `totalKWh = 0`.
-/

structure UsageRecord where
  timestamp : ℕ
  kWh : ℚ
deriving Repr, DecidableEq

abbrev UsageSeries := List UsageRecord

/-- `row["timestamp"].time()` : the time-of-day of a timestamp, in minutes. -/
def timeOfDay (ts : ℕ) : ℕ := ts % 1440

/-- `datetime.combine(dt.date(), time.min)` in minutes. -/
def startOfDay (ts : ℕ) : ℕ := ts / 1440 * 1440

/-- `datetime.combine(dt.date(), time.max)` in minutes: the last minute of
the day of `ts`, so that every reading of that day is `≤ endOfDay ts`. -/
def endOfDay (ts : ℕ) : ℕ := ts / 1440 * 1440 + 1439

/-- `df["kWh"].sum()`. -/
def sumKWh (df : UsageSeries) : ℚ := (df.map (·.kWh)).sum

/-- `d[k] = d.get(k, 0) + v` on an insertion-ordered dict. -/
def addTo : List (String × ℚ) → String → ℚ → List (String × ℚ)
  | [], k, v => [(k, v)]
  | (k0, v0) :: rest, k, v =>
    if k0 = k then (k0, v0 + v) :: rest else (k0, v0) :: addTo rest k v

/-- `d[k] = v` on an insertion-ordered dict. -/
def setTo : List (String × ℚ) → String → ℚ → List (String × ℚ)
  | [], k, v => [(k, v)]
  | (k0, v0) :: rest, k, v =>
    if k0 = k then (k0, v) :: rest else (k0, v0) :: setTo rest k v

/-- `sum(d.values())`. -/
def sumValues (bd : List (String × ℚ)) : ℚ := (bd.map (·.2)).sum

/-- The result dict of a calculator.  `totalKWh` defaults to `0` for the
dicts that do not carry that key (`touTariff` of `project.py`). -/
structure Bill where
  breakdown : List (String × ℚ)
  fixedFee : ℚ
  totalBill : ℚ
  totalKWh : ℚ := 0
deriving Repr, DecidableEq

/-- One entry of a `touRates` dict: either a default window
(`{"default": True, "rate": r}`, embedded with `isDefault = true` and the
unused `start`/`stop` defaulted to `0`) or a window
`{"start": s, "end": e, "rate": r}`.  `stop` stands for the `"end"` key
(`end` is a reserved word in Lean). -/
structure RateWindow where
  isDefault : Bool := false
  start : ℕ := 0
  stop : ℕ := 0
  rate : ℚ
deriving Repr, DecidableEq

/-- The interval test of `touTariff` (identical in all three files):
`if info["start"] < info["end"]: start <= ts < end`
`else: ts >= start or ts < end`. -/
def matchesWindow (info : RateWindow) (t : ℕ) : Bool :=
  if info.start < info.stop then decide (info.start ≤ t ∧ t < info.stop)
  else decide (info.start ≤ t ∨ t < info.stop)

/-- The inner loop of `touTariff`: the first non-default window that matches
`t`, in declaration order (`break` on the first hit). -/
def firstMatch (touRates : List (String × RateWindow)) (t : ℕ) :
    Option (String × RateWindow) :=
  touRates.find? (fun p => !p.2.isDefault && matchesWindow p.2 t)

/-- Processing of one row by `touTariff`: bill it to the first matching
non-default window; if none matches (`applied` stays false), bill it to
every default window (the fallback loop has no `break`). -/
def touApply (touRates : List (String × RateWindow)) (bd : List (String × ℚ))
    (t : ℕ) (kWh : ℚ) : List (String × ℚ) :=
  match firstMatch touRates t with
  | some (period, info) => addTo bd period (kWh * info.rate)
  | none =>
      touRates.foldl
        (fun acc p => if p.2.isDefault then addTo acc p.1 (kWh * p.2.rate) else acc)
        bd

/-- The per-row accumulation of `touTariff` over the whole series. -/
def touBreakdown (df : UsageSeries) (touRates : List (String × RateWindow)) :
    List (String × ℚ) :=
  df.foldl (fun bd r => touApply touRates bd (timeOfDay r.timestamp) r.kWh) []

namespace project

/-- `project.py` lines 51-60: `flatRateTariff(df, flatRate, fixedFee)`. -/
def flatRateTariff (df : UsageSeries) (flatRate fixedFee : ℚ) : Bill :=
  let totalKWh := sumKWh df
  let energyCost := totalKWh * flatRate
  { totalKWh := totalKWh
    breakdown := [("Energy Cost", energyCost)]
    fixedFee := fixedFee
    totalBill := energyCost + fixedFee }

/-- `project.py` lines 63-88: `touTariff(df, touRates, fixedFee)`.  The fixed
fee is added to the total but not inserted into `breakdown`. -/
def touTariff (df : UsageSeries) (touRates : List (String × RateWindow))
    (fixedFee : ℚ) : Bill :=
  let bd := touBreakdown df touRates
  { breakdown := bd
    fixedFee := fixedFee
    totalBill := sumValues bd + fixedFee }

/-- One tier dict `{"limit": l, "rate": r}` of `project.py`:
`limit = None` means unlimited. -/
structure Tier where
  limit : Option ℚ
  rate : ℚ
deriving Repr, DecidableEq

/-- One entry of the list `breakdown` built by `tieredTariff` of
`project.py`: `{"used": u, "rate": r, "cost": c}`. -/
structure TierEntry where
  used : ℚ
  rate : ℚ
  cost : ℚ
deriving Repr, DecidableEq

/-- The `for tier in tiers` loop of `tieredTariff` (`project.py` lines
96-111), carrying `remaining` and `previousLimit`; returns the recorded
entries.  `break` ends the loop, so the list ends at the tier that absorbs
the remainder; a loop that exhausts the tiers with usage left records
nothing further. -/
def tieredGo : ℚ → ℚ → List Tier → List TierEntry
  | _, _, [] => []
  | remaining, previousLimit, tier :: rest =>
    match tier.limit with
    | none => [⟨remaining, tier.rate, remaining * tier.rate⟩]
    | some limit =>
      if remaining ≤ limit - previousLimit then
        [⟨remaining, tier.rate, remaining * tier.rate⟩]
      else
        ⟨limit - previousLimit, tier.rate, (limit - previousLimit) * tier.rate⟩ ::
          tieredGo (remaining - (limit - previousLimit)) limit rest

/-- The result dict of `tieredTariff` of `project.py`: its `breakdown` is a
list of per-tier dicts, not a label map. -/
structure TieredBill where
  totalKWh : ℚ
  breakdown : List TierEntry
  fixedFee : ℚ
  totalBill : ℚ
deriving Repr, DecidableEq

/-- `project.py` lines 90-113: `tieredTariff(df, tiers, fixedFee)`. -/
def tieredTariff (df : UsageSeries) (tiers : List Tier) (fixedFee : ℚ) :
    TieredBill :=
  let totalKWh := sumKWh df
  let bd := tieredGo totalKWh 0 tiers
  { totalKWh := totalKWh
    breakdown := bd
    fixedFee := fixedFee
    totalBill := (bd.map (·.cost)).sum + fixedFee }

/-- `project.py` lines 115-117: `filterDataByDuration(df, startDate, endDate)`
keeps the rows with `startDate <= timestamp <= endDate`, with the bounds
exactly as given (no normalization of a date to the bounds of its day). -/
def filterDataByDuration (df : UsageSeries) (startDate endDate : ℕ) :
    UsageSeries :=
  df.filter (fun r =>
    decide (startDate ≤ r.timestamp) && decide (r.timestamp ≤ endDate))

/-- Python `min(iterable, key=...)` on totals: keeps the current minimum and
replaces it only on a strictly smaller key, so the first minimum wins. -/
def minBy : (String × ℚ) → List (String × ℚ) → (String × ℚ)
  | acc, [] => acc
  | acc, x :: rest => minBy (if x.2 < acc.2 then x else acc) rest

/-- `project.py` lines 132-140: the values `compareBills(bills)` computes
(and prints): `minScheme = min(bills, key=lambda k: bills[k]["totalBill"])`,
`minValue`, and for each scheme `diff = total - minValue`.  `bills` is
embedded as the insertion-ordered list of `(scheme, totalBill)` pairs; on an
empty dict the Python `min` raises, embedded as `none`. -/
def compareBills (bills : List (String × ℚ)) :
    Option (String × List (String × ℚ)) :=
  match bills with
  | [] => none
  | b :: rest =>
    let m := minBy b rest
    some (m.1, (b :: rest).map (fun p => (p.1, p.2 - m.2)))

end project

namespace projectv2

/-- `projectv2.py` lines 60-63: `flatRateTariff(df, rate, fixed)` — the fixed
fee IS a breakdown entry here. -/
def flatRateTariff (df : UsageSeries) (rate fixed : ℚ) : Bill :=
  let total := sumKWh df
  let energy := total * rate
  { breakdown := [("Energy", energy), ("Fixed Fee", fixed)]
    fixedFee := fixed
    totalBill := energy + fixed }

/-- `projectv2.py` lines 65-82: `touTariff(df, rates, fixed)` — same matching
loop as `project.py`, but `breakdown["Fixed Fee"] = fixed` before summing, so
`totalBill = sum(breakdown.values())`. -/
def touTariff (df : UsageSeries) (rates : List (String × RateWindow))
    (fixed : ℚ) : Bill :=
  let bd := setTo (touBreakdown df rates) "Fixed Fee" fixed
  { breakdown := bd
    fixedFee := fixed
    totalBill := sumValues bd }

end projectv2

namespace projectv3

/-- `projectv3.py` lines 41-46: `flatRateTariff(df, flatRate, fixedFee)` —
`breakdown = {"Energy": energyCost}` only; the fee is added to the total but
not inserted into the breakdown. -/
def flatRateTariff (df : UsageSeries) (flatRate fixedFee : ℚ) : Bill :=
  let totalKWh := sumKWh df
  let energyCost := totalKWh * flatRate
  { totalKWh := totalKWh
    breakdown := [("Energy", energyCost)]
    fixedFee := fixedFee
    totalBill := energyCost + fixedFee }

/-- `projectv3.py` lines 49-84: `touTariff(df, touRates, fixedFee)` — same
matching loop, then `breakdown_costs["Fixed Fee"] = fixedFee` and
`total = sum(breakdown_costs.values())`. -/
def touTariff (df : UsageSeries) (touRates : List (String × RateWindow))
    (fixedFee : ℚ) : Bill :=
  let bd := setTo (touBreakdown df touRates) "Fixed Fee" fixedFee
  { breakdown := bd
    fixedFee := fixedFee
    totalBill := sumValues bd }

/-- The key `f"Tier {n}"` of the breakdown dict of `tieredTariff`. -/
def tierLabel (n : ℕ) : String := "Tier " ++ toString n

/-- A value of the `tier_limits` list of `tieredTariff` in `projectv3.py`.
`none` embeds the falsy non-numeric limits (`None` and the empty string
`""`); `some q` embeds a numeric limit, which Python still treats as falsy
when it is `0`.  `falsy` below is the Python test `not limit`. -/
def falsy : Option ℚ → Bool
  | none => true
  | some q => q == 0

/-- `float(limit)` for a limit that passed the truthiness test. -/
def limitVal : Option ℚ → ℚ
  | none => 0
  | some q => q

/-- The `for i, limit in enumerate(tier_limits)` loop of `tieredTariff`
(`projectv3.py` lines 93-112), carrying the index `i`, `remaining_usage` and
`prev_limit`; returns the recorded `(label, cost)` entries together with the
final `remaining_usage`.  the Python `tier_rates[i]` access is embedded as
`tier_rates.getD i 0` (the callers supply at least as many rates as
limits). -/
def tieredGo (tier_rates : List ℚ) :
    List (Option ℚ) → ℕ → ℚ → ℚ → List (String × ℚ) × ℚ
  | [], _, remaining, _ => ([], remaining)
  | limit :: rest, i, remaining, prev_limit =>
    let rate := tier_rates.getD i 0
    let used :=
      if falsy limit then remaining
      else min remaining (limitVal limit - prev_limit)
    let entry := (tierLabel (i + 1), used * rate)
    let remaining2 := remaining - used
    let prev2 := if falsy limit then prev_limit + used else limitVal limit
    if remaining2 ≤ 0 then ([entry], remaining2)
    else
      let res := tieredGo tier_rates rest (i + 1) remaining2 prev2
      (entry :: res.1, res.2)

/-- `projectv3.py` lines 87-131: `tieredTariff(df, tier_limits, tier_rates,
fixed_fee)`.  After the loop, leftover usage is billed at the last declared
rate only when an extra rate was supplied beyond the limit list; then the
fixed fee becomes a breakdown entry and the total is the sum of the
breakdown values. -/
def tieredTariff (df : UsageSeries) (tier_limits : List (Option ℚ))
    (tier_rates : List ℚ) (fixed_fee : ℚ) : Bill :=
  let total_usage := sumKWh df
  let res := tieredGo tier_rates tier_limits 0 total_usage 0
  let bd :=
    if 0 < res.2 ∧ tier_limits.length < tier_rates.length then
      res.1 ++ [(tierLabel (tier_limits.length + 1), res.2 * tier_rates.getLastD 0)]
    else res.1
  let bd := setTo bd "Fixed Fee" fixed_fee
  { totalKWh := total_usage
    breakdown := bd
    fixedFee := fixed_fee
    totalBill := sumValues bd }

/-- `projectv3.py` lines 136-144: `filter_by_duration(df, start_dt, end_dt)`
— both bounds are datetimes here, so both are normalized: the start to
00:00:00 of its date, the end to 23:59:59.999999 of its date, and the filter
is inclusive on both normalized bounds. -/
def filter_by_duration (df : UsageSeries) (start_dt end_dt : ℕ) :
    UsageSeries :=
  let start_ts := startOfDay start_dt
  let end_ts := endOfDay end_dt
  df.filter (fun r =>
    decide (start_ts ≤ r.timestamp) && decide (r.timestamp ≤ end_ts))

/-- `projectv3.py` lines 531-538 (`calculate_and_compare`): the cheapest
scheme is `min(bills.keys(), key=lambda k: bills[k]["totalBill"])` — the
same first-minimum computation as `compareBills` of `project.py`. -/
def cheapestScheme (bills : List (String × ℚ)) : Option String :=
  match bills with
  | [] => none
  | b :: rest => some (project.minBy b rest).1

end projectv3

/-! ## Helper lemmas -/

theorem tierLabel_one : projectv3.tierLabel 1 = "Tier 1" := rfl

theorem tierLabel_two : projectv3.tierLabel 2 = "Tier 2" := rfl

theorem tier1_ne_fixedFeeLabel : ("Tier 1" : String) ≠ "Fixed Fee" := by decide

theorem tier2_ne_fixedFeeLabel : ("Tier 2" : String) ≠ "Fixed Fee" := by decide

/-- `d[k] = v` leaves the key `k` present in the dict. -/
theorem setTo_mem_key (bd : List (String × ℚ)) (k : String) (v : ℚ) :
    k ∈ (setTo bd k v).map Prod.fst := by
  induction bd with
  | nil => simp [setTo]
  | cons p rest ih =>
    by_cases h : p.1 = k
    · simp [setTo, h]
    · simp only [setTo, h, if_false, List.map_cons, List.mem_cons]
      exact Or.inr ih

/-- The fallback loop of `touTariff` only touches the default windows: the
fold over all windows equals the fold over the defaults alone. -/
theorem touFold_eq_filter (rates : List (String × RateWindow))
    (bd : List (String × ℚ)) (kWh : ℚ) :
    rates.foldl
      (fun acc p => if p.2.isDefault then addTo acc p.1 (kWh * p.2.rate) else acc)
      bd =
    (rates.filter (fun p => p.2.isDefault)).foldl
      (fun acc p => addTo acc p.1 (kWh * p.2.rate)) bd := by
  induction rates generalizing bd with
  | nil => rfl
  | cons p rest ih =>
    by_cases h : p.2.isDefault
    · simp only [List.foldl_cons, List.filter_cons, h, if_true, ih]
    · simp only [List.foldl_cons, List.filter_cons, h, if_false, ih]
      simp [h]

/-- The Python `min` keeps the first strict minimum: the result splits the list
into a strictly-greater prefix, the returned minimum, and a suffix, and is a
lower bound of everything. -/
theorem minBy_spec (acc : String × ℚ) (l : List (String × ℚ)) :
    ∃ l1 l2, acc :: l = l1 ++ project.minBy acc l :: l2 ∧
      (∀ x ∈ l1, (project.minBy acc l).2 < x.2) ∧
      (∀ x ∈ acc :: l, (project.minBy acc l).2 ≤ x.2) := by
  induction l generalizing acc with
  | nil =>
    exact ⟨[], [], rfl, by simp, by simp [project.minBy]⟩
  | cons x xs ih =>
    by_cases h : x.2 < acc.2
    · obtain ⟨l1, l2, heq, hlt, hle⟩ := ih x
      have hstep : project.minBy acc (x :: xs) = project.minBy x xs := by
        simp [project.minBy, h]
      refine ⟨acc :: l1, l2, ?_, ?_, ?_⟩
      · rw [hstep, List.cons_append, ← heq]
      · intro y hy
        rcases List.mem_cons.mp hy with hy | hy
        · subst hy
          have hx : (project.minBy x xs).2 ≤ x.2 := by
            rw [hstep] at *
            exact hle x (List.mem_cons_self x xs)
          rw [hstep]
          exact lt_of_le_of_lt hx h
        · rw [hstep]; exact hlt y hy
      · intro y hy
        rcases List.mem_cons.mp hy with hy | hy
        · subst hy
          have hx : (project.minBy x xs).2 ≤ x.2 :=
            hle x (List.mem_cons_self x xs)
          rw [hstep]
          exact le_of_lt (lt_of_le_of_lt hx h)
        · rw [hstep]; exact hle y hy
    · obtain ⟨l1, l2, heq, hlt, hle⟩ := ih acc
      have hstep : project.minBy acc (x :: xs) = project.minBy acc xs := by
        simp [project.minBy, h]
      have hax : acc.2 ≤ x.2 := le_of_not_lt h
      cases l1 with
      | nil =>
        have hacc : project.minBy acc xs = acc := by
          have := heq
          simp only [List.nil_append] at this
          exact (List.cons.injEq _ _ _ _ ▸ this).1.symm
        refine ⟨[], x :: xs, ?_, ?_, ?_⟩
        · simp [hstep, hacc]
        · simp
        · intro y hy
          rcases List.mem_cons.mp hy with hy | hy
          · subst hy; rw [hstep, hacc]
          · rcases List.mem_cons.mp hy with hy | hy
            · subst hy; rw [hstep, hacc]; exact hax
            · rw [hstep]
              exact hle y (List.mem_cons.mpr (Or.inr hy))
      | cons a l1t =>
        have heq2 : acc = a ∧ xs = l1t ++ project.minBy acc xs :: l2 := by
          have := heq
          simp only [List.cons_append] at this
          exact ⟨(List.cons.injEq _ _ _ _ ▸ this).1,
                 (List.cons.injEq _ _ _ _ ▸ this).2⟩
        have hmacc : (project.minBy acc xs).2 < acc.2 := by
          have : a ∈ a :: l1t := List.mem_cons_self a l1t
          have := hlt a this
          rw [← heq2.1] at this
          exact this
        refine ⟨acc :: x :: l1t, l2, ?_, ?_, ?_⟩
        · rw [hstep]
          simp only [List.cons_append]
          rw [← heq2.2]
        · intro y hy
          rcases List.mem_cons.mp hy with hy | hy
          · subst hy; rw [hstep]; exact hmacc
          · rcases List.mem_cons.mp hy with hy | hy
            · subst hy; rw [hstep]
              exact lt_of_lt_of_le hmacc hax
            · rw [hstep]
              exact hlt y (List.mem_cons.mpr (Or.inr hy))
        · intro y hy
          rcases List.mem_cons.mp hy with hy | hy
          · subst hy; rw [hstep]; exact le_of_lt hmacc
          · rcases List.mem_cons.mp hy with hy | hy
            · subst hy; rw [hstep]
              exact le_of_lt (lt_of_lt_of_le hmacc hax)
            · rw [hstep]
              exact hle y (List.mem_cons.mpr (Or.inr hy))

/-! ## Claim theorems -/

/-- C2: for a rate window with `start >= end` (midnight-wrapping), the
matcher of `touTariff` matches a time-of-day `t` exactly when
`t >= start` or `t < end`; a window 22:00-07:00 (1320-420 in minutes)
matches 23:30, 00:15 and 06:59 and does not match 07:00 or 21:59. -/
theorem C2_wrap_window_match :
    (∀ (info : RateWindow) (t : ℕ), info.stop ≤ info.start →
      (matchesWindow info t = true ↔ (info.start ≤ t ∨ t < info.stop))) ∧
    (∀ (lbl : String) (w : RateWindow) (t : ℕ),
      w.isDefault = false → w.stop ≤ w.start →
      (firstMatch [(lbl, w)] t = some (lbl, w) ↔ (w.start ≤ t ∨ t < w.stop))) ∧
    matchesWindow ⟨false, 1320, 420, 1⟩ 1410 = true ∧
    matchesWindow ⟨false, 1320, 420, 1⟩ 15 = true ∧
    matchesWindow ⟨false, 1320, 420, 1⟩ 419 = true ∧
    matchesWindow ⟨false, 1320, 420, 1⟩ 420 = false ∧
    matchesWindow ⟨false, 1320, 420, 1⟩ 1319 = false := by
  have hmatch : ∀ (info : RateWindow) (t : ℕ), info.stop ≤ info.start →
      (matchesWindow info t = true ↔ (info.start ≤ t ∨ t < info.stop)) := by
    intro info t h
    rw [matchesWindow, if_neg (by omega)]
    simp
  refine ⟨hmatch, ?_, by decide, by decide, by decide, by decide, by decide⟩
  intro lbl w t hdef h
  rw [firstMatch]
  constructor
  · intro hfind
    have := List.find?_some hfind
    simp only [hdef, Bool.not_false, Bool.true_and] at this
    exact (hmatch w t h).mp this
  · intro ht
    have : (!w.isDefault && matchesWindow w t) = true := by
      simp [hdef, (hmatch w t h).mpr ht]
    simp [List.find?_cons, this]

/-- C2 witness: the general wrap-window characterization applied to the
22:00-07:00 window at 23:30. -/
theorem C2_wrap_window_match_witness :
    matchesWindow ⟨false, 1320, 420, 1⟩ 1410 = true ↔ (1320 ≤ 1410 ∨ 1410 < 420) :=
  C2_wrap_window_match.1 ⟨false, 1320, 420, 1⟩ 1410 (by norm_num)

/-- C3: for a rate window with `start < end` (normal), the matcher of
`touTariff` matches a time-of-day `t` exactly when `start <= t < end`; in
particular the window never matches its own `end`, and a single reading at a
`end` boundary of a window falls through: with a plan of one 09:00-17:00 window
and a default, a reading at exactly 17:00 (minute 1020) is billed to the
default, not to the window. -/
theorem C3_normal_window_match :
    (∀ (info : RateWindow) (t : ℕ), info.start < info.stop →
      (matchesWindow info t = true ↔ (info.start ≤ t ∧ t < info.stop))) ∧
    (∀ info : RateWindow, info.start < info.stop →
      matchesWindow info info.stop = false) ∧
    (∀ rp rs fee : ℚ,
      project.touTariff [⟨1020, 3⟩]
        [("Peak", ⟨false, 540, 1020, rp⟩), ("Shoulder", { isDefault := true, rate := rs })]
        fee =
      { breakdown := [("Shoulder", 3 * rs)], fixedFee := fee,
        totalBill := 3 * rs + fee }) := by
  have hmatch : ∀ (info : RateWindow) (t : ℕ), info.start < info.stop →
      (matchesWindow info t = true ↔ (info.start ≤ t ∧ t < info.stop)) := by
    intro info t h
    rw [matchesWindow, if_pos h]
    simp
  refine ⟨hmatch, ?_, ?_⟩
  · intro info h
    have := hmatch info info.stop h
    simp only [lt_irrefl, and_false, iff_false] at this
    simpa using this
  · intro rp rs fee
    simp [project.touTariff, touBreakdown, touApply, firstMatch, matchesWindow,
      timeOfDay, sumValues, addTo]

/-- C3 witness: the normal-window characterization applied to the
09:00-17:00 window at 17:00. -/
theorem C3_normal_window_match_witness :
    matchesWindow ⟨false, 540, 1020, 1⟩ 1020 = false :=
  C3_normal_window_match.2.1 ⟨false, 540, 1020, 1⟩ (by norm_num)

/-- C1: tier cascading.  For tiers `[{limit:100, rate:0.20}, {limit:300,
rate:0.30}, {limit:None, rate:0.40}]` and a series totalling 250 kWh, tier 1
absorbs 100 kWh costing 20, tier 2 absorbs 150 kWh costing 45, no further
tier is charged (tier 3 absorbs 0 kWh costing 0), and the total is 65 plus
the fixed fee — in both `project.py` and `projectv3.py`.  In general each
limited tier absorbs `min(remaining, upperLimit - previousLimit)`, an
unlimited tier absorbs all of `remaining`, and the iteration stops once the
remainder is exhausted. -/
theorem C1_tier_cascade :
    (∀ (df : UsageSeries) (fee : ℚ), sumKWh df = 250 →
      project.tieredTariff df
        [⟨some 100, 1/5⟩, ⟨some 300, 3/10⟩, ⟨none, 2/5⟩] fee =
      { totalKWh := 250, breakdown := [⟨100, 1/5, 20⟩, ⟨150, 3/10, 45⟩],
        fixedFee := fee, totalBill := 65 + fee }) ∧
    (∀ (df : UsageSeries) (fee : ℚ), sumKWh df = 250 →
      projectv3.tieredTariff df [some 100, some 300, none]
        [1/5, 3/10, 2/5] fee =
      { totalKWh := 250,
        breakdown := [("Tier 1", 20), ("Tier 2", 45), ("Fixed Fee", fee)],
        fixedFee := fee, totalBill := 65 + fee }) ∧
    (∀ (remaining previousLimit limit rate : ℚ) (rest : List project.Tier),
      (project.tieredGo remaining previousLimit
        (⟨some limit, rate⟩ :: rest)).head?.map (·.used) =
      some (min remaining (limit - previousLimit))) ∧
    (∀ (remaining previousLimit rate : ℚ) (rest : List project.Tier),
      project.tieredGo remaining previousLimit (⟨none, rate⟩ :: rest) =
        [⟨remaining, rate, remaining * rate⟩]) ∧
    (∀ (remaining previousLimit limit rate : ℚ) (rest : List project.Tier),
      remaining ≤ limit - previousLimit →
      project.tieredGo remaining previousLimit (⟨some limit, rate⟩ :: rest) =
        [⟨remaining, rate, remaining * rate⟩]) := by
  refine ⟨?_, ?_, ?_, ?_, ?_⟩
  · intro df fee h
    simp only [project.tieredTariff, h]
    norm_num [project.tieredGo]
  · intro df fee h
    simp only [projectv3.tieredTariff, h]
    norm_num [projectv3.tieredGo, projectv3.falsy, projectv3.limitVal, setTo,
      sumValues, tierLabel_one, tierLabel_two, tier1_ne_fixedFeeLabel,
      tier2_ne_fixedFeeLabel]
    ring
  · intro remaining previousLimit limit rate rest
    by_cases h : remaining ≤ limit - previousLimit
    · simp [project.tieredGo, h, min_eq_left h]
    · have hle : limit - previousLimit ≤ remaining := le_of_not_le h
      simp [project.tieredGo, h, min_eq_right hle]
  · intro remaining previousLimit rate rest
    simp [project.tieredGo]
  · intro remaining previousLimit limit rate rest h
    simp [project.tieredGo, h]

/-- C1 witness: the cascade at the concrete series `[(0, 250 kWh)]` with
fixed fee 10. -/
theorem C1_tier_cascade_witness :
    project.tieredTariff [⟨0, 250⟩]
      [⟨some 100, 1/5⟩, ⟨some 300, 3/10⟩, ⟨none, 2/5⟩] 10 =
    { totalKWh := 250, breakdown := [⟨100, 1/5, 20⟩, ⟨150, 3/10, 45⟩],
      fixedFee := 10, totalBill := 75 } := by
  have h := C1_tier_cascade.1 [⟨0, 250⟩] 10 (by norm_num [sumKWh])
  rw [h]
  norm_num

/-- C4 counterexample: the claimed invariant `totalBill =
sum(breakdown.values())` with the fixed fee inserted into `breakdown` fails
for the Flat calculator of `projectv3.py`: for the series `[(0, 10 kWh)]`,
rate 2 and fixed fee 5, `totalBill` is 25 while the breakdown (which has no
"Fixed Fee" entry) sums to 20. -/
theorem C4_fee_convention_cex :
    (projectv3.flatRateTariff [⟨0, 10⟩] 2 5).totalBill ≠
      sumValues (projectv3.flatRateTariff [⟨0, 10⟩] 2 5).breakdown := by
  norm_num [projectv3.flatRateTariff, sumKWh, sumValues]

/-- C4 amended: the engine does not apply one fee convention uniformly.
In `projectv3.py`, `touTariff` and `tieredTariff` insert the fixed fee into
the breakdown under "Fixed Fee" and satisfy `totalBill =
sum(breakdown.values())`, and so do both calculators of `projectv2.py`;
but `flatRateTariff` of `projectv3.py` keeps the fee out of the breakdown
(`totalBill = sum(breakdown.values()) + fixedFee`) and every calculator of
`project.py` does the same. -/
theorem C4_fee_convention_amended :
    (∀ (df : UsageSeries) (rates : List (String × RateWindow)) (fee : ℚ),
      (projectv3.touTariff df rates fee).totalBill =
        sumValues (projectv3.touTariff df rates fee).breakdown ∧
      "Fixed Fee" ∈ (projectv3.touTariff df rates fee).breakdown.map Prod.fst) ∧
    (∀ (df : UsageSeries) (limits : List (Option ℚ)) (rates : List ℚ) (fee : ℚ),
      (projectv3.tieredTariff df limits rates fee).totalBill =
        sumValues (projectv3.tieredTariff df limits rates fee).breakdown ∧
      "Fixed Fee" ∈
        (projectv3.tieredTariff df limits rates fee).breakdown.map Prod.fst) ∧
    (∀ (df : UsageSeries) (rates : List (String × RateWindow)) (fee : ℚ),
      (projectv2.touTariff df rates fee).totalBill =
        sumValues (projectv2.touTariff df rates fee).breakdown ∧
      "Fixed Fee" ∈ (projectv2.touTariff df rates fee).breakdown.map Prod.fst) ∧
    (∀ (df : UsageSeries) (rate fee : ℚ),
      (projectv2.flatRateTariff df rate fee).totalBill =
        sumValues (projectv2.flatRateTariff df rate fee).breakdown ∧
      "Fixed Fee" ∈ (projectv2.flatRateTariff df rate fee).breakdown.map Prod.fst) ∧
    (∀ (df : UsageSeries) (rate fee : ℚ),
      (projectv3.flatRateTariff df rate fee).totalBill =
        sumValues (projectv3.flatRateTariff df rate fee).breakdown + fee ∧
      "Fixed Fee" ∉ (projectv3.flatRateTariff df rate fee).breakdown.map Prod.fst) ∧
    (∀ (df : UsageSeries) (rate fee : ℚ),
      (project.flatRateTariff df rate fee).totalBill =
        sumValues (project.flatRateTariff df rate fee).breakdown + fee ∧
      "Fixed Fee" ∉ (project.flatRateTariff df rate fee).breakdown.map Prod.fst) ∧
    (∀ (df : UsageSeries) (rates : List (String × RateWindow)) (fee : ℚ),
      (project.touTariff df rates fee).totalBill =
        sumValues (project.touTariff df rates fee).breakdown + fee) ∧
    (∀ (df : UsageSeries) (tiers : List project.Tier) (fee : ℚ),
      (project.tieredTariff df tiers fee).totalBill =
        ((project.tieredTariff df tiers fee).breakdown.map (·.cost)).sum + fee) := by
  refine ⟨?_, ?_, ?_, ?_, ?_, ?_, ?_, ?_⟩
  · intro df rates fee
    exact ⟨rfl, setTo_mem_key _ _ _⟩
  · intro df limits rates fee
    exact ⟨rfl, setTo_mem_key _ _ _⟩
  · intro df rates fee
    exact ⟨rfl, setTo_mem_key _ _ _⟩
  · intro df rate fee
    refine ⟨?_, by simp [projectv2.flatRateTariff]⟩
    simp [projectv2.flatRateTariff, sumValues]
  · intro df rate fee
    refine ⟨?_, by simp [projectv3.flatRateTariff]⟩
    simp [projectv3.flatRateTariff, sumValues]
  · intro df rate fee
    refine ⟨?_, by simp [project.flatRateTariff]⟩
    simp [project.flatRateTariff, sumValues]
  · intro df rates fee
    rfl
  · intro df tiers fee
    rfl

/-- C5 counterexample: with the single tier `{limit:100, rate:0.20}` and a
series totalling 250 kWh, `tieredTariff` of `project.py` bills only 100 of
the 250 kWh: the total is 20 (not 20 + 150*0.20 = 50, and no error is
raised), so the 150 kWh excess is silently discarded. -/
theorem C5_tier_overflow_cex :
    project.tieredTariff [⟨0, 250⟩] [⟨some 100, 1/5⟩] 0 =
      { totalKWh := 250, breakdown := [⟨100, 1/5, 20⟩], fixedFee := 0,
        totalBill := 20 } ∧
    ((project.tieredTariff [⟨0, 250⟩] [⟨some 100, 1/5⟩] 0).breakdown.map
      (·.used)).sum = 100 := by
  constructor
  · norm_num [project.tieredTariff, project.tieredGo, sumKWh]
  · norm_num [project.tieredTariff, project.tieredGo, sumKWh]

/-- C5 amended: the tier-overflow policy is implementation-dependent and can
silently discard usage rather than erroring or charging it.  In
`project.py`, a plan with a single limited tier `(L, r)` always bills
`min(totalKWh, L) * r` plus the fee — usage beyond `L` contributes nothing
and no error is raised.  In `projectv3.py`, when the total `t` exceeds the
only limit `L`, the excess `t - L` is billed at the last declared rate only
when an extra rate was supplied beyond the limit list; with equally many
rates and limits the excess is discarded there too. -/
theorem C5_tier_overflow_amended :
    (∀ (df : UsageSeries) (L r fee : ℚ),
      (project.tieredTariff df [⟨some L, r⟩] fee).totalBill =
        min (sumKWh df) L * r + fee) ∧
    (∀ (t L r1 r2 fee : ℚ), L ≠ 0 → L < t →
      projectv3.tieredTariff [⟨0, t⟩] [some L] [r1, r2] fee =
      { totalKWh := t,
        breakdown := [("Tier 1", L * r1), ("Tier 2", (t - L) * r2),
                      ("Fixed Fee", fee)],
        fixedFee := fee, totalBill := L * r1 + (t - L) * r2 + fee }) ∧
    (∀ (t L r fee : ℚ), L ≠ 0 → L < t →
      projectv3.tieredTariff [⟨0, t⟩] [some L] [r] fee =
      { totalKWh := t, breakdown := [("Tier 1", L * r), ("Fixed Fee", fee)],
        fixedFee := fee, totalBill := L * r + fee }) := by
  refine ⟨?_, ?_, ?_⟩
  · intro df L r fee
    by_cases h : sumKWh df ≤ L
    · simp [project.tieredTariff, project.tieredGo, sub_zero, h, min_eq_left h]
    · have hle : L ≤ sumKWh df := le_of_not_le h
      simp [project.tieredTariff, project.tieredGo, sub_zero, h,
        min_eq_right hle]
  · intro t L r1 r2 fee hL hlt
    have hfalsy : projectv3.falsy (some L) = false := by
      simp [projectv3.falsy, hL]
    have hsum : sumKWh [⟨0, t⟩] = t := by simp [sumKWh]
    have hmin : min t L = L := min_eq_right (le_of_lt hlt)
    have hnot : ¬ (t - L ≤ 0) := by linarith
    norm_num [projectv3.tieredTariff, hsum, projectv3.tieredGo, hfalsy,
      projectv3.limitVal, hmin, hnot, hlt, setTo, sumValues, tierLabel_one,
      tierLabel_two, tier1_ne_fixedFeeLabel, tier2_ne_fixedFeeLabel]
    ring
  · intro t L r fee hL hlt
    have hfalsy : projectv3.falsy (some L) = false := by
      simp [projectv3.falsy, hL]
    have hsum : sumKWh [⟨0, t⟩] = t := by simp [sumKWh]
    have hmin : min t L = L := min_eq_right (le_of_lt hlt)
    have hnot : ¬ (t - L ≤ 0) := by linarith
    norm_num [projectv3.tieredTariff, hsum, projectv3.tieredGo, hfalsy,
      projectv3.limitVal, hmin, hnot, hlt, setTo, sumValues, tierLabel_one,
      tier1_ne_fixedFeeLabel]

/-- C5 witness: the amended overflow behavior at concrete inputs — the
`project.py` closed form at the series `[(0, 250 kWh)]`, tier limit 100,
rate 1/5, and the `projectv3.py` extra-rate behavior at total 250, limit
100, rates 1/5 and 3/10, fee 2. -/
theorem C5_tier_overflow_amended_witness :
    (project.tieredTariff [⟨0, 250⟩] [⟨some 100, 1/5⟩] 0).totalBill =
      min (sumKWh [⟨0, 250⟩]) 100 * (1/5) + 0 ∧
    projectv3.tieredTariff [⟨0, 250⟩] [some 100] [1/5, 3/10] 2 =
      { totalKWh := 250,
        breakdown := [("Tier 1", 100 * (1/5)), ("Tier 2", (250 - 100) * (3/10)),
                      ("Fixed Fee", 2)],
        fixedFee := 2, totalBill := 100 * (1/5) + (250 - 100) * (3/10) + 2 } :=
  ⟨C5_tier_overflow_amended.1 [⟨0, 250⟩] 100 (1/5) 0,
   C5_tier_overflow_amended.2.1 250 100 (1/5) (3/10) 2 (by norm_num) (by norm_num)⟩

/-- C6 counterexample: with a plan of a single non-default 18:00-22:00
window and no default window, a single 5 kWh reading at 10:00 produces the
bill `{breakdown: {}, fixedFee: 3, totalBill: 3}` — identical to the bill of
an empty series.  The unmatched consumption leaves no trace in the result:
no unbilled-kWh count is surfaced. -/
theorem C6_unmatched_cex :
    project.touTariff [⟨600, 5⟩] [("Peak", ⟨false, 1080, 1320, 2/5⟩)] 3 =
      { breakdown := [], fixedFee := 3, totalBill := 3 } ∧
    project.touTariff [⟨600, 5⟩] [("Peak", ⟨false, 1080, 1320, 2/5⟩)] 3 =
      project.touTariff [] [("Peak", ⟨false, 1080, 1320, 2/5⟩)] 3 := by
  constructor <;>
    norm_num [project.touTariff, touBreakdown, touApply, firstMatch,
      matchesWindow, timeOfDay, sumValues]

/-- C6 amended: a record matching no non-default window is billed to the
default window when exactly one exists; when the plan has NO default window
the record contributes nothing to any bucket and is silently dropped — no
unbilled-kWh count appears in the result. -/
theorem C6_unmatched_amended :
    (∀ (rates : List (String × RateWindow)) (bd : List (String × ℚ))
      (t : ℕ) (kWh : ℚ) (d : String) (info : RateWindow),
      firstMatch rates t = none →
      rates.filter (fun p => p.2.isDefault) = [(d, info)] →
      touApply rates bd t kWh = addTo bd d (kWh * info.rate)) ∧
    (∀ (rates : List (String × RateWindow)) (bd : List (String × ℚ))
      (t : ℕ) (kWh : ℚ),
      (∀ p ∈ rates, p.2.isDefault = false) → firstMatch rates t = none →
      touApply rates bd t kWh = bd) := by
  constructor
  · intro rates bd t kWh d info hfm hflt
    rw [touApply, hfm, touFold_eq_filter, hflt]
    rfl
  · intro rates bd t kWh hnd hfm
    rw [touApply, hfm, touFold_eq_filter]
    have hnil : rates.filter (fun p => p.2.isDefault) = [] := by
      rw [List.filter_eq_nil_iff]
      intro p hp
      simp [hnd p hp]
    rw [hnil]
    rfl

/-- C6 witness: both amended behaviors at a 10:00 record — billed to the
default "Shoulder" window when it exists, dropped when no default exists. -/
theorem C6_unmatched_amended_witness :
    touApply [("Peak", ⟨false, 1080, 1320, 2/5⟩),
              ("Shoulder", { isDefault := true, rate := 1/4 })] [] 600 5 =
      addTo [] "Shoulder" (5 * (1/4)) ∧
    touApply [("Peak", ⟨false, 1080, 1320, 2/5⟩)] [] 600 5 = [] :=
  ⟨C6_unmatched_amended.1 _ [] 600 5 "Shoulder"
      { isDefault := true, rate := 1/4 } (by decide) (by simp [List.filter]),
   C6_unmatched_amended.2 _ [] 600 5 (by decide) (by decide)⟩

/-- C7 counterexample: the engine does not refuse an empty series — the Flat
calculator of `project.py` on zero readings returns a bill whose total is
exactly the fixed fee (7 here). -/
theorem C7_empty_series_cex :
    (project.flatRateTariff [] 2 7).totalBill = 7 := by
  norm_num [project.flatRateTariff, sumKWh]

/-- C7 amended: every calculator accepts an empty series and returns a bill
of exactly the fixed fee with zero consumption; the empty-range refusal
lives only in the excluded caller layer (the menus check `df.empty` before
calculating), not in the calculators. -/
theorem C7_empty_series_amended :
    (∀ rate fee : ℚ, project.flatRateTariff [] rate fee =
      { totalKWh := 0, breakdown := [("Energy Cost", 0)], fixedFee := fee,
        totalBill := fee }) ∧
    (∀ (rates : List (String × RateWindow)) (fee : ℚ),
      project.touTariff [] rates fee =
        { breakdown := [], fixedFee := fee, totalBill := fee }) ∧
    (∀ rate fee : ℚ, projectv2.flatRateTariff [] rate fee =
      { breakdown := [("Energy", 0), ("Fixed Fee", fee)], fixedFee := fee,
        totalBill := fee }) ∧
    (∀ (tiers : List project.Tier) (fee : ℚ),
      (∀ t ∈ tiers, ∀ l, t.limit = some l → 0 ≤ l) →
      (project.tieredTariff [] tiers fee).totalBill = fee) := by
  refine ⟨?_, ?_, ?_, ?_⟩
  · intro rate fee
    simp [project.flatRateTariff, sumKWh]
  · intro rates fee
    simp [project.touTariff, touBreakdown, sumValues]
  · intro rate fee
    simp [projectv2.flatRateTariff, sumKWh]
  · intro tiers fee h
    have hsum : sumKWh [] = 0 := by simp [sumKWh]
    cases tiers with
    | nil => simp [project.tieredTariff, project.tieredGo, hsum]
    | cons tier rest =>
      cases hl : tier.limit with
      | none =>
        simp [project.tieredTariff, project.tieredGo, hsum, hl]
      | some l =>
        have h0 : (0:ℚ) ≤ l := h tier (List.mem_cons_self tier rest) l hl
        have h0s : (0:ℚ) ≤ l - 0 := by linarith
        simp [project.tieredTariff, project.tieredGo, hsum, hl, h0, h0s]

/-- C7 witness: the amended tiered behavior on an empty series at a concrete
nonneg-limit plan (limit 100, rate 1/5, fee 9). -/
theorem C7_empty_series_amended_witness :
    (project.tieredTariff [] [⟨some 100, 1/5⟩] 9).totalBill = 9 :=
  C7_empty_series_amended.2.2.2 [⟨some 100, 1/5⟩] 9 (by
    intro t ht l hl
    simp at ht
    subst ht
    simp at hl
    subst hl
    norm_num)

/-- C8: the comparator computation.  For the bills `{Flat: 80, TOU: 75.50,
Tiered: 82.10}` it yields cheapest "TOU" with deltas `{Flat: 4.50, TOU: 0,
Tiered: 6.60}`; in general, for any non-empty bill mapping the winner splits
the insertion-ordered list into a strictly-more-expensive prefix, itself,
and a suffix it is a lower bound of (so ties go to the first-encountered
key), every delta is `total - cheapest total`, and `calculate_and_compare`
of `projectv3.py` picks the same cheapest scheme. -/
theorem C8_comparator :
    project.compareBills [("Flat", 80), ("TOU", 151/2), ("Tiered", 821/10)] =
      some ("TOU", [("Flat", 9/2), ("TOU", 0), ("Tiered", 33/5)]) ∧
    (∀ (b : String × ℚ) (rest : List (String × ℚ)),
      ∃ l1 l2,
        project.compareBills (b :: rest) =
          some ((project.minBy b rest).1,
            (b :: rest).map (fun p => (p.1, p.2 - (project.minBy b rest).2))) ∧
        b :: rest = l1 ++ project.minBy b rest :: l2 ∧
        (∀ x ∈ l1, (project.minBy b rest).2 < x.2) ∧
        (∀ x ∈ b :: rest, (project.minBy b rest).2 ≤ x.2)) ∧
    (∀ (b : String × ℚ) (rest : List (String × ℚ)),
      projectv3.cheapestScheme (b :: rest) = some (project.minBy b rest).1) := by
  refine ⟨?_, ?_, ?_⟩
  · norm_num [project.compareBills, project.minBy]
  · intro b rest
    obtain ⟨l1, l2, heq, hlt, hle⟩ := minBy_spec b rest
    exact ⟨l1, l2, rfl, heq, hlt, hle⟩
  · intro b rest
    rfl

/-- C9 counterexample: `filterDataByDuration` of `project.py` does NOT
normalize a date bound to the end of its day: filtering the single calendar
day given by `startDate = endDate = 0` (midnight of day 0, a bound with no
time-of-day component) drops the 10:00 reading (minute 600) of that very
day, so a one-day range does not capture the 24 hours of the day. -/
theorem C9_range_filter_cex :
    project.filterDataByDuration [⟨600, 5⟩] 0 0 = [] := rfl

/-- C9 amended: both filters are inclusive on both bounds, but only
`filter_by_duration` of `projectv3.py` normalizes the bounds — any datetime
bound has its time-of-day discarded, the start floored to 00:00 and the end
raised to the end of its day, so there a one-day range captures every
reading of that day; `filterDataByDuration` of `project.py` applies the
bounds exactly as given, with no normalization. -/
theorem C9_range_filter_amended :
    (∀ (df : UsageSeries) (s e : ℕ) (r : UsageRecord),
      r ∈ project.filterDataByDuration df s e ↔
        (r ∈ df ∧ s ≤ r.timestamp ∧ r.timestamp ≤ e)) ∧
    (∀ (df : UsageSeries) (s e : ℕ) (r : UsageRecord),
      r ∈ projectv3.filter_by_duration df s e ↔
        (r ∈ df ∧ startOfDay s ≤ r.timestamp ∧ r.timestamp ≤ endOfDay e)) ∧
    (∀ (df : UsageSeries) (s e : ℕ) (r : UsageRecord),
      r ∈ df → r.timestamp / 1440 = s / 1440 → r.timestamp / 1440 = e / 1440 →
      r ∈ projectv3.filter_by_duration df s e) := by
  refine ⟨?_, ?_, ?_⟩
  · intro df s e r
    simp [project.filterDataByDuration, List.mem_filter, and_assoc]
  · intro df s e r
    simp [projectv3.filter_by_duration, List.mem_filter, and_assoc]
  · intro df s e r hmem hs he
    have hdm := Nat.div_add_mod r.timestamp 1440
    have hlt : r.timestamp % 1440 < 1440 := Nat.mod_lt _ (by norm_num)
    rw [projectv3.filter_by_duration]
    simp only [List.mem_filter, hmem, true_and, Bool.and_eq_true,
      decide_eq_true_eq]
    constructor
    · rw [startOfDay, ← hs]
      omega
    · rw [endOfDay, ← he]
      omega

/-- C9 witness: the one-day capture of `projectv3.py` at the 10:00 reading
of day 0 with both bounds at minute 0 of day 0. -/
theorem C9_range_filter_amended_witness :
    (⟨600, 5⟩ : UsageRecord) ∈ projectv3.filter_by_duration [⟨600, 5⟩] 0 0 :=
  C9_range_filter_amended.2.2 [⟨600, 5⟩] 0 0 ⟨600, 5⟩
    (List.mem_cons_self _ _) (by norm_num) (by norm_num)

/-- C10: in `tieredTariff` of `projectv3.py`, a tier whose limit entry is
falsy (`None`, the empty string — both embedded as `none` — or the number
0) is treated as unlimited: it absorbs all remaining usage at its rate and
the loop stops there; concretely, a plan declaring limits `[0, 100]` bills
the entire consumption at the rate of the first tier and never charges the
second tier. -/
theorem C10_falsy_limit_unlimited :
    (∀ (rates : List ℚ) (rest : List (Option ℚ)) (i : ℕ)
      (remaining prev : ℚ) (limit : Option ℚ),
      projectv3.falsy limit = true →
      projectv3.tieredGo rates (limit :: rest) i remaining prev =
        ([(projectv3.tierLabel (i + 1), remaining * rates.getD i 0)], 0)) ∧
    (∀ (t r1 r2 fee : ℚ),
      projectv3.tieredTariff [⟨0, t⟩] [some 0, some 100] [r1, r2] fee =
      { totalKWh := t, breakdown := [("Tier 1", t * r1), ("Fixed Fee", fee)],
        fixedFee := fee, totalBill := t * r1 + fee }) := by
  constructor
  · intro rates rest i remaining prev limit h
    simp [projectv3.tieredGo, h]
  · intro t r1 r2 fee
    have hsum : sumKWh [⟨0, t⟩] = t := by simp [sumKWh]
    have hfalsy : projectv3.falsy (some 0) = true := by
      simp [projectv3.falsy]
    norm_num [projectv3.tieredTariff, hsum, projectv3.tieredGo, hfalsy,
      setTo, sumValues, tierLabel_one, tier1_ne_fixedFeeLabel]

/-- C10 witness: the falsy-limit step applied at limit `some 0`, rates
`[1/2, 3]`, 250 kWh remaining. -/
theorem C10_falsy_limit_unlimited_witness :
    projectv3.tieredGo [1/2, 3] [some 0, some 100] 0 250 0 =
      ([(projectv3.tierLabel 1, 250 * ([(1:ℚ)/2, 3].getD 0 0))], 0) :=
  C10_falsy_limit_unlimited.1 [1/2, 3] [some 100] 0 250 0 (some 0) (by
    simp [projectv3.falsy])

/-- C4 amended witness: the non-uniform conventions at the concrete series
`[(0, 10 kWh)]` — the `projectv3.py` Flat bill adds the fee outside the
breakdown. -/
theorem C4_fee_convention_amended_witness :
    (projectv3.flatRateTariff [⟨0, 10⟩] 2 5).totalBill =
      sumValues (projectv3.flatRateTariff [⟨0, 10⟩] 2 5).breakdown + 5 :=
  (C4_fee_convention_amended.2.2.2.2.1 [⟨0, 10⟩] 2 5).1

/-- C8 witness: the tie-break of the comparator at two schemes with equal
totals — the first-encountered key wins. -/
theorem C8_comparator_witness :
    projectv3.cheapestScheme [("A", 5), ("B", 5)] =
      some (project.minBy ("A", 5) [("B", 5)]).1 :=
  C8_comparator.2.2 ("A", 5) [("B", 5)]
